import Mathlib

/-
Formal model of the conversation-session core of the Thaxu/Apollo AI
VS Code chat extension (src/chat.ts and src/thaxuAIProvider.ts).

The shallow embedding translates the TypeScript source directly:
 * `ApolloAI.conversationHistory` (a module-level mutable array) becomes an
   explicit `List Message` threaded through the operations;
 * `Date.now()` becomes an explicit `now : Nat` carried in the world state,
   so each synchronous event stamps its messages with the same instant;
 * the abstract HTTP capability of `askAI` becomes an oracle
   `Nat → AttemptOutcome` giving, for each attempt number, either an HTTP
   response (status, status text, parsed JSON body or a parse failure) or a
   thrown value;
 * a JavaScript exception escaping a function is modelled as `Except.error`;
   a thrown value is a `JSError` whose `message`/`name` properties may be
   absent (`none`), as for `throw 42`.
-/

namespace Thaxu

/-- A chat message as stored both in the shared conversation history
(`ApolloAI.conversationHistory`) and in the per-panel display log
(`ThaxuAIProvider._chatHistory`): role, content, timestamp. -/
structure Message where
  role : String
  content : String
  timestamp : Nat
deriving DecidableEq

/-- JavaScript `array.slice(-n)`: the last `n` elements (the whole list when
it is shorter than `n`). -/
def lastN (n : Nat) (l : List α) : List α := l.drop (l.length - n)

/-- The truncation step inside `ApolloAI.addToHistory`: keep the last 8
messages when the history exceeds 8 (`this.conversationHistory.slice(-8)`). -/
def capHistory (l : List Message) : List Message :=
  if l.length > 8 then l.drop (l.length - 8) else l

/-- `ApolloAI.addToHistory(role, content)`: push a message stamped with the
current time, then truncate to the last 8 entries. -/
def addToHistory (h : List Message) (role content : String) (ts : Nat) : List Message :=
  capHistory (h ++ [⟨role, content, ts⟩])

/-- `ApolloAI.clearHistory()`: the shared history becomes empty. -/
def clearHistory : List Message := []

/-- `ApolloAI.getHistory()`: a defensive copy of the history; on immutable
lists this is the identity. -/
def getHistory (h : List Message) : List Message := h

/-- Substring test on character lists, used to model JavaScript
`String.prototype.includes`. -/
def charListIncludes (pat : List Char) : List Char → Bool
  | [] => pat.isEmpty
  | c :: rest => pat.isPrefixOf (c :: rest) || charListIncludes pat rest

/-- JavaScript `s.includes(pat)`. -/
def strIncludes (s pat : String) : Bool := charListIncludes pat.data s.data

/-- JavaScript `s.toLowerCase()` (ASCII, which covers every keyword the
source tests). -/
def jsToLower (s : String) : String := ⟨s.data.map Char.toLower⟩

/-- The record produced by `ApolloAI.analyzeConversationContext`.  The
source also carries a `repeatedTopics` array, but it is initialised empty
and never written or read, so it is omitted here. -/
structure ConvContext where
  hasCodeQuestions : Bool
  hasPrintQuestions : Bool
  hasCalculatorQuestions : Bool
  userProgression : String
  lastUserQuestion : String
  lastAssistantResponse : String
  conversationLength : Nat
  topicContinuity : Bool
  questionType : String
deriving DecidableEq

/-- One iteration of the `for (const msg of recent)` loop in
`analyzeConversationContext`: the accumulator is the context record plus
the `userQuestions` and `assistantResponses` arrays. -/
def analyzeMsgStep (acc : ConvContext × List String × List String) (m : Message) :
    ConvContext × List String × List String :=
  let ctx := acc.1
  let userQuestions := acc.2.1
  let assistantResponses := acc.2.2
  let content := jsToLower m.content
  if m.role = "user" then
    let ctx := { ctx with lastUserQuestion := m.content }
    let userQuestions := userQuestions ++ [content]
    let ctx :=
      if strIncludes content "print" then
        let ctx := { ctx with hasPrintQuestions := true }
        if strIncludes content "what" || strIncludes content "does" || strIncludes content "use" then
          { ctx with questionType := "concept_inquiry" }
        else if strIncludes content "output" || strIncludes content "result" then
          { ctx with questionType := "prediction" }
        else ctx
      else ctx
    let ctx :=
      if strIncludes content "code" || strIncludes content "function" || strIncludes content "python" then
        { ctx with hasCodeQuestions := true }
      else ctx
    let ctx :=
      if strIncludes content "calculator" || strIncludes content "create" || strIncludes content "make" then
        { ctx with hasCalculatorQuestions := true, questionType := "project_request" }
      else ctx
    let ctx :=
      if strIncludes content "output" && (strIncludes content "print" || strIncludes content "\"") then
        { ctx with questionType := "output_prediction" }
      else ctx
    (ctx, userQuestions, assistantResponses)
  else if m.role = "assistant" then
    ({ ctx with lastAssistantResponse := m.content }, userQuestions, assistantResponses ++ [content])
  else
    (ctx, userQuestions, assistantResponses)

/-- The body of `analyzeConversationContext` as a function of the
`recent = history.slice(-6)` window and of the full history length (the
source reads `this.conversationHistory.length` once, into
`conversationLength`). -/
def analyzeCore (recent : List Message) (len : Nat) : ConvContext :=
  let ctx0 : ConvContext :=
    { hasCodeQuestions := false
      hasPrintQuestions := false
      hasCalculatorQuestions := false
      userProgression := "beginner"
      lastUserQuestion := ""
      lastAssistantResponse := ""
      conversationLength := len
      topicContinuity := false
      questionType := "general" }
  let res := recent.foldl analyzeMsgStep (ctx0, [], [])
  let ctx := res.1
  let userQuestions := res.2.1
  let ctx :=
    if userQuestions.length ≥ 2 then
      let recentTopics := lastN 2 userQuestions
      if recentTopics.all (fun q => strIncludes q "print") ||
          recentTopics.all (fun q => strIncludes q "calculator") then
        { ctx with topicContinuity := true }
      else ctx
    else ctx
  let ctx :=
    if ctx.conversationLength > 4 then { ctx with userProgression := "intermediate" } else ctx
  let ctx :=
    if ctx.hasCodeQuestions && ctx.conversationLength > 2 then
      { ctx with userProgression := "hands_on" }
    else ctx
  ctx

/-- `ApolloAI.analyzeConversationContext()`: inspect the last six history
entries, with `conversationLength` taken from the full history. -/
def analyzeConversationContext (history : List Message) : ConvContext :=
  analyzeCore (lastN 6 history) history.length

/- ### Sliding-window lemmas for the capped history -/

theorem lastN_of_le {l : List α} (h : l.length ≤ 8) : lastN 8 l = l := by
  unfold lastN
  have : l.length - 8 = 0 := by omega
  simp [this]

theorem capHistory_lastN (l : List Message) (m : Message) :
    capHistory (lastN 8 l ++ [m]) = lastN 8 (l ++ [m]) := by
  by_cases h : l.length ≤ 8
  · rw [lastN_of_le h]
    unfold capHistory lastN
    by_cases h8 : l.length = 8
    · simp [h8]
    · have hl : (l ++ [m]).length = l.length + 1 := by simp
      simp only [hl]
      rw [if_neg (by omega)]
      have h0 : l.length + 1 - 8 = 0 := by omega
      simp [h0]
  · unfold capHistory lastN
    have h9 : (l.drop (l.length - 8) ++ [m]).length = 9 := by simp; omega
    simp only [h9]
    rw [if_pos (by omega)]
    have hl : (l ++ [m]).length = l.length + 1 := by simp
    simp only [hl]
    rw [List.drop_append_eq_append_drop, List.drop_append_eq_append_drop,
      List.drop_drop]
    have e1 : l.length - 8 + (9 - 8) = l.length + 1 - 8 := by omega
    have e2 : 9 - 8 - (l.drop (l.length - 8)).length = 0 := by simp; omega
    have e3 : l.length + 1 - 8 - l.length = 0 := by omega
    rw [e1, e2, e3]

theorem addToHistory_lastN (l : List Message) (r c : String) (ts : Nat) :
    addToHistory (lastN 8 l) r c ts = lastN 8 (l ++ [⟨r, c, ts⟩]) := by
  unfold addToHistory
  exact capHistory_lastN l ⟨r, c, ts⟩

/-- Folding any sequence of appends from the empty history yields exactly the
last-8 window of the full appended sequence. -/
theorem foldl_addToHistory (es : List (String × String × Nat)) :
    es.foldl (fun h e => addToHistory h e.1 e.2.1 e.2.2) [] =
      lastN 8 (es.map fun e => (⟨e.1, e.2.1, e.2.2⟩ : Message)) := by
  induction es using List.reverseRecOn with
  | nil => rfl
  | append_singleton es e ih =>
    rw [List.foldl_append, List.map_append]
    simp only [List.foldl_cons, List.foldl_nil, List.map_cons, List.map_nil]
    rw [ih]
    exact addToHistory_lastN _ e.1 e.2.1 e.2.2

/- ### The remote call `askAI` (src/chat.ts) -/

/-- A JavaScript thrown value as observed by a `catch (err: any)` clause:
its `message` and `name` properties may be absent (e.g. `throw 42`). -/
structure JSError where
  message : Option String
  name : Option String
deriving DecidableEq

/-- `choices[0].message` of the backend JSON. -/
structure APIChoiceMsg where
  content : Option String
deriving DecidableEq

/-- One element of `choices` (the unused `text` field is omitted). -/
structure APIChoice where
  message : Option APIChoiceMsg
deriving DecidableEq

/-- The JSON body shape `askAI` inspects (`APIResponse` in the source; the
metadata fields it only logs are omitted). -/
structure APIResponse where
  choices : Option (List APIChoice)
  generated_text : Option String
deriving DecidableEq

/-- What one HTTP attempt of `askAI` observes, abstracting the HTTP
capability: either a settled response with status, status text and parsed
JSON body (`none` body = `res.json()` raised, i.e. malformed/empty JSON), or
a value thrown by the networking layer (network failure, timeout abort). -/
inductive AttemptOutcome where
  | resp (status : Nat) (statusText : String) (body : Option APIResponse)
  | thrown (err : JSError)
deriving DecidableEq

def rateLimitError : JSError :=
  ⟨some "⏱️ Rate limit exceeded. Please wait a moment and try again.", some "Error"⟩

def authedError : JSError :=
  ⟨some "🔑 Authentication failed. Please check your API key.", some "Error"⟩

def serverError : JSError :=
  ⟨some "🔧 Server error. The AI service is temporarily unavailable.", some "Error"⟩

def httpStatusError (status : Nat) (statusText : String) : JSError :=
  ⟨some ("API Error (" ++ toString status ++ "): " ++ statusText), some "Error"⟩

def formatError : JSError :=
  ⟨some "Unexpected response format from AI service", some "Error"⟩

def emptyResponseError : JSError :=
  ⟨some "Empty response from AI service", some "Error"⟩

/-- `res.json()` raising on a malformed body. -/
def jsonSyntaxError : JSError :=
  ⟨some "Unexpected end of JSON input", some "SyntaxError"⟩

/-- The TypeError raised inside the final catch block when
`err.message.includes(...)` is evaluated on a thrown value whose `message`
is not present. -/
def includesTypeError : JSError :=
  ⟨some "Cannot read properties of undefined (reading \x27includes\x27)", some "TypeError"⟩

/-- The `else if (json.generated_text)` fallback of the extraction:
`generated_text` is used when present and truthy (non-empty), otherwise the
`Unexpected response format` error is thrown. -/
def genTextFallback (j : APIResponse) : Except JSError String :=
  match j.generated_text with
  | some t => if t.length > 0 then Except.ok t else Except.error formatError
  | none => Except.error formatError

/-- The extraction of the completion text inside the `try` block:
`choices[0].message.content` (or the empty string) when `choices[0].message` is present,
otherwise the `generated_text` fallback. -/
def extractResponseText (j : APIResponse) : Except JSError String :=
  match j.choices.bind List.head? with
  | some c =>
    match c.message with
    | some msg => Except.ok (msg.content.getD "")
    | none => genTextFallback j
  | none => genTextFallback j

/-- The body of one `try` iteration of `askAI` up to (and including) the
empty-response check, before trimming: errors are the values the source
throws at each exit. -/
def attemptText (o : AttemptOutcome) : Except JSError String :=
  match o with
  | AttemptOutcome.thrown e => Except.error e
  | AttemptOutcome.resp status statusText body =>
    if 200 ≤ status ∧ status < 300 then
      match body with
      | none => Except.error jsonSyntaxError
      | some j =>
        match extractResponseText j with
        | Except.error e => Except.error e
        | Except.ok rt =>
          if rt = "" then Except.error emptyResponseError else Except.ok rt
    else
      if status = 429 then Except.error rateLimitError
      else if status = 401 then Except.error authedError
      else if 500 ≤ status then Except.error serverError
      else Except.error (httpStatusError status statusText)

instance exceptDecEq {ε α : Type} [DecidableEq ε] [DecidableEq α] :
    DecidableEq (Except ε α) := fun x y =>
  match x, y with
  | Except.error e1, Except.error e2 =>
    if h : e1 = e2 then isTrue (by rw [h]) else isFalse (by intro hc; cases hc; exact h rfl)
  | Except.error _, Except.ok _ => isFalse (by intro hc; cases hc)
  | Except.ok _, Except.error _ => isFalse (by intro hc; cases hc)
  | Except.ok a1, Except.ok a2 =>
    if h : a1 = a2 then isTrue (by rw [h]) else isFalse (by intro hc; cases hc; exact h rfl)

/-- The whitespace class of JavaScript `String.prototype.trim`, restricted
to the ASCII characters that can occur here. -/
def isJsWhitespace (c : Char) : Bool :=
  c == ' ' || c == '\t' || c == '\n' || c == '\r' || c == '\x0b' || c == '\x0c'

/-- JavaScript `s.trim()`. -/
def jsTrim (s : String) : String :=
  ⟨((s.data.dropWhile isJsWhitespace).reverse.dropWhile isJsWhitespace).reverse⟩

/-- One complete attempt: on success the trimmed text is returned and the
user prompt and the trimmed completion are appended (in that order) to the
shared conversation history (`ApolloAI.addToHistory` at the end of the
`try` block). -/
def runAttempt (o : AttemptOutcome) (prompt : String) (hist : List Message) (now : Nat) :
    Except JSError (String × List Message) :=
  match attemptText o with
  | Except.error e => Except.error e
  | Except.ok rt =>
    Except.ok (jsTrim rt,
      addToHistory (addToHistory hist "user" prompt now) "assistant" (jsTrim rt) now)

def rateLimitedTemplate (hasHistory : Bool) (len : Nat) : String :=
  "⏱️ **Rate Limited**\n\nToo many requests in a short time. Please wait a moment before trying again.\n\n**Tip:** Use the Force Answer button sparingly to avoid hitting limits." ++
    (if hasHistory then
      "\n\n*Previous conversation context (" ++ toString len ++ " messages) will be preserved.*"
    else "")

def authTemplate : String :=
  "🔑 **Authentication Error**\n\nAPI key authentication failed. Please contact the extension developer to resolve this issue."

def networkTemplate (hasHistory : Bool) (len : Nat) : String :=
  "🌐 **Network Error**\n\nUnable to connect to Apollo AI service (Qwen2-0.5B). This could be due to:\n- Internet connection issues\n- The AI service being temporarily unavailable\n- Network firewall blocking the request\n\n**Solutions:**\n- Check your internet connection\n- Try again in a few moments\n- If the problem persists, the service may be down\n\n" ++
    (if hasHistory then
      "*Your conversation history (" ++ toString len ++ " messages) is preserved and will be included when the service is available.*"
    else "")

def genericTemplate (modeText errMsg : String) (hasHistory : Bool) (len : Nat) (qt : String) : String :=
  "❌ **Connection Failed**\n\nUnable to reach Apollo AI service (Qwen2-0.5B) for " ++ modeText ++
    ":\n`" ++ errMsg ++
    "`\n\n**Possible solutions:**\n- Check your internet connection\n- Try again in a few moments  \n- The AI service might be temporarily unavailable\n\n**If this error persists:**\n- Check VS Code\x27s output panel for more details\n- Try restarting VS Code\n- Report the issue if it continues\n\n" ++
    (if hasHistory then
      "*Conversation context (" ++ toString len ++ " messages with " ++ qt ++ " focus) is preserved.*"
    else "")

/-- The `return` after the retry loop, reachable only when the retry budget
is zero. -/
def defaultFailText : String :=
  "❌ Failed to get response after multiple attempts. Please try again later."

/-- The failure kinds whose wording the final catch block distinguishes. -/
inductive FailureKind where
  | rateLimited
  | authFailed
  | networkOrTimeout
  | generic
deriving DecidableEq

/-- How the final catch block classifies the last failure: by substring
tests on `err.message` plus the `err.name === "AbortError"` test. -/
def classifyFailure (e : JSError) : FailureKind :=
  match e.message with
  | none => FailureKind.generic
  | some m =>
    if strIncludes m "Rate limit" then FailureKind.rateLimited
    else if strIncludes m "Authentication" then FailureKind.authFailed
    else if strIncludes m "fetch" || e.name == some "AbortError" then FailureKind.networkOrTimeout
    else FailureKind.generic

/-- The user-facing text returned for each failure kind. -/
def renderFailure (k : FailureKind) (forceMode : Bool) (e : JSError) (hist : List Message) : String :=
  let modeText := if forceMode then "direct answer" else "learning guidance"
  let hasHistory : Bool := hist.length != 0
  let ctx := analyzeConversationContext hist
  match k with
  | FailureKind.rateLimited => rateLimitedTemplate hasHistory ctx.conversationLength
  | FailureKind.authFailed => authTemplate
  | FailureKind.networkOrTimeout => networkTemplate hasHistory ctx.conversationLength
  | FailureKind.generic =>
    genericTemplate modeText (e.message.getD "") hasHistory ctx.conversationLength ctx.questionType

/-- The `attempt === retries` branch of the catch block.  When the thrown
value has no string `message`, evaluating `err.message.includes("Rate limit")`
itself raises a TypeError which escapes `askAI`. -/
def finalCatch (err : JSError) (forceMode : Bool) (hist : List Message) : Except JSError String :=
  match err.message with
  | none => Except.error includesTypeError
  | some m =>
    let modeText := if forceMode then "direct answer" else "learning guidance"
    let hasHistory : Bool := hist.length != 0
    let ctx := analyzeConversationContext hist
    if strIncludes m "Rate limit" then
      Except.ok (rateLimitedTemplate hasHistory ctx.conversationLength)
    else if strIncludes m "Authentication" then
      Except.ok authTemplate
    else if strIncludes m "fetch" || err.name == some "AbortError" then
      Except.ok (networkTemplate hasHistory ctx.conversationLength)
    else
      Except.ok (genericTemplate modeText m hasHistory ctx.conversationLength ctx.questionType)

/-- State threaded through the retry loop: the shared conversation history
and the list of backoff delays (ms) performed so far, in order. -/
structure AskState where
  history : List Message
  waits : List Nat
deriving DecidableEq

/-- The `for (let attempt = 1; attempt <= retries; attempt++)` loop of
`askAI`: `a` is the current attempt number, the second argument the number
of attempts still allowed (`retries - a + 1`).  On a failed non-final
attempt the loop records the exponential backoff delay
`2 ^ (attempt - 1) * 1000` and retries; on the final attempt it delegates
to the template selection of the catch block. -/
def askLoop (oracle : Nat → AttemptOutcome) (prompt : String) (forceMode : Bool) (now : Nat) :
    Nat → Nat → AskState → AskState × Except JSError String
  | _, 0, st => (st, Except.ok defaultFailText)
  | a, r + 1, st =>
    match runAttempt (oracle a) prompt st.history now with
    | Except.ok p => ({ st with history := p.2 }, Except.ok p.1)
    | Except.error e =>
      if r = 0 then (st, finalCatch e forceMode st.history)
      else askLoop oracle prompt forceMode now (a + 1) r
        { st with waits := st.waits ++ [2 ^ (a - 1) * 1000] }

/-- `askAI(prompt, options)` with retry budget `retries`, starting from the
shared history `history` at instant `now`.  The first component is the
final loop state (history, backoff delays); the second is the returned
text, or the exception escaping `askAI`. -/
def askAI (oracle : Nat → AttemptOutcome) (prompt : String) (forceMode : Bool)
    (retries : Nat) (now : Nat) (history : List Message) :
    AskState × Except JSError String :=
  askLoop oracle prompt forceMode now 1 retries ⟨history, []⟩

/- ### Unfolding lemmas for the retry loop -/

theorem askLoop_zero (oracle : Nat → AttemptOutcome) (prompt : String) (f : Bool) (now a : Nat)
    (st : AskState) : askLoop oracle prompt f now a 0 st = (st, Except.ok defaultFailText) := rfl

theorem askLoop_ok_step (oracle : Nat → AttemptOutcome) (prompt : String) (f : Bool)
    (now a r : Nat) (st : AskState) (p : String × List Message)
    (h : runAttempt (oracle a) prompt st.history now = Except.ok p) :
    askLoop oracle prompt f now a (r + 1) st = ({ st with history := p.2 }, Except.ok p.1) := by
  simp [askLoop, h]

theorem askLoop_err_last (oracle : Nat → AttemptOutcome) (prompt : String) (f : Bool)
    (now a : Nat) (st : AskState) (e : JSError)
    (h : runAttempt (oracle a) prompt st.history now = Except.error e) :
    askLoop oracle prompt f now a 1 st = (st, finalCatch e f st.history) := by
  simp [askLoop, h]

theorem askLoop_err_retry (oracle : Nat → AttemptOutcome) (prompt : String) (f : Bool)
    (now a r : Nat) (st : AskState) (e : JSError)
    (h : runAttempt (oracle a) prompt st.history now = Except.error e) (hr : r ≠ 0) :
    askLoop oracle prompt f now a (r + 1) st =
      askLoop oracle prompt f now (a + 1) r
        { st with waits := st.waits ++ [2 ^ (a - 1) * 1000] } := by
  simp [askLoop, h, hr]

/-- If the attempts `a, a+1, …, a+f-1` all fail and attempt `a+f` succeeds
within the remaining budget, the loop returns the success and has performed
exactly the backoff delays of the `f` failed attempts, in order. -/
theorem askLoop_success (oracle : Nat → AttemptOutcome) (prompt : String) (force : Bool)
    (now : Nat) :
    ∀ (f a r : Nat) (st : AskState) (t : String) (h' : List Message),
      f < r →
      (∀ i, i < f → ∃ e, runAttempt (oracle (a + i)) prompt st.history now = Except.error e) →
      runAttempt (oracle (a + f)) prompt st.history now = Except.ok (t, h') →
      askLoop oracle prompt force now a r st =
        ({ history := h',
           waits := st.waits ++ (List.range f).map fun i => 2 ^ (a + i - 1) * 1000 },
         Except.ok t) := by
  intro f
  induction f with
  | zero =>
    intro a r st t h' hfr _ hsucc
    obtain ⟨r', rfl⟩ : ∃ r', r = r' + 1 := ⟨r - 1, by omega⟩
    rw [askLoop_ok_step oracle prompt force now a r' st (t, h') (by simpa using hsucc)]
    simp
  | succ f ih =>
    intro a r st t h' hfr hfail hsucc
    obtain ⟨r', rfl⟩ : ∃ r', r = r' + 1 := ⟨r - 1, by omega⟩
    obtain ⟨e0, he0⟩ := hfail 0 (Nat.succ_pos f)
    rw [askLoop_err_retry oracle prompt force now a r' st e0 (by simpa using he0) (by omega)]
    have hfail' : ∀ i, i < f →
        ∃ e, runAttempt (oracle (a + 1 + i)) prompt st.history now = Except.error e := by
      intro i hi
      have := hfail (i + 1) (by omega)
      rwa [show a + (i + 1) = a + 1 + i by omega] at this
    have hsucc' : runAttempt (oracle (a + 1 + f)) prompt st.history now = Except.ok (t, h') := by
      rwa [show a + (f + 1) = a + 1 + f by omega] at hsucc
    rw [ih (a + 1) r' { st with waits := st.waits ++ [2 ^ (a - 1) * 1000] } t h' (by omega)
      hfail' hsucc']
    have hfun : ∀ i : Nat, a + 1 + i - 1 = a + (i + 1) - 1 := by intro i; omega
    simp [List.range_succ_eq_map, List.map_map, Function.comp, hfun, List.append_assoc]

/-- If all `r ≥ 1` attempts starting at `a` fail, the loop returns whatever
the final catch block produces for the last error, the history is untouched,
and exactly `r - 1` backoff delays were performed. -/
theorem askLoop_allfail (oracle : Nat → AttemptOutcome) (prompt : String) (force : Bool)
    (now : Nat) :
    ∀ (r a : Nat) (st : AskState) (e : Nat → JSError),
      1 ≤ r →
      (∀ i, i < r → runAttempt (oracle (a + i)) prompt st.history now = Except.error (e i)) →
      askLoop oracle prompt force now a r st =
        ({ history := st.history,
           waits := st.waits ++ (List.range (r - 1)).map fun i => 2 ^ (a + i - 1) * 1000 },
         finalCatch (e (r - 1)) force st.history) := by
  intro r
  induction r with
  | zero => intro a st e h1; omega
  | succ r ih =>
    intro a st e _ hfail
    cases r with
    | zero =>
      have h0 := hfail 0 (by omega)
      rw [askLoop_err_last oracle prompt force now a st (e 0) (by simpa using h0)]
      simp
    | succ r' =>
      have h0 := hfail 0 (by omega)
      rw [askLoop_err_retry oracle prompt force now a (r' + 1) st (e 0) (by simpa using h0)
        (by omega)]
      have hfail' : ∀ i, i < r' + 1 →
          runAttempt (oracle (a + 1 + i)) prompt st.history now = Except.error (e (i + 1)) := by
        intro i hi
        have := hfail (i + 1) (by omega)
        rwa [show a + (i + 1) = a + 1 + i by omega] at this
      rw [ih (a + 1) { st with waits := st.waits ++ [2 ^ (a - 1) * 1000] }
        (fun i => e (i + 1)) (by omega) hfail']
      have hfun : ∀ i : Nat, a + 1 + i - 1 = a + (i + 1) - 1 := by intro i; omega
      simp [List.range_succ_eq_map, List.map_map, Function.comp, hfun, List.append_assoc]

/-- Whenever the attempts up to and including the whole budget never
succeed, the loop leaves the shared history untouched. -/
theorem askLoop_history_of_no_success (oracle : Nat → AttemptOutcome) (prompt : String)
    (force : Bool) (now : Nat) :
    ∀ (r a : Nat) (st : AskState),
      (∀ i, i < r → ∃ e, runAttempt (oracle (a + i)) prompt st.history now = Except.error e) →
      (askLoop oracle prompt force now a r st).1.history = st.history := by
  intro r
  induction r with
  | zero => intro a st _; rfl
  | succ r ih =>
    intro a st hfail
    obtain ⟨e0, he0⟩ := hfail 0 (by omega)
    cases r with
    | zero =>
      rw [askLoop_err_last oracle prompt force now a st e0 (by simpa using he0)]
    | succ r' =>
      rw [askLoop_err_retry oracle prompt force now a (r' + 1) st e0 (by simpa using he0)
        (by omega)]
      apply ih
      intro i hi
      have := hfail (i + 1) (by omega)
      rwa [show a + (i + 1) = a + 1 + i by omega] at this

/- ### Totality of `askAI` for Error-like thrown values -/

/-- The networking layer only throws values carrying a string `message`
(as every `Error` object does). -/
def outcomeSafe (o : AttemptOutcome) : Bool :=
  match o with
  | AttemptOutcome.thrown e => e.message.isSome
  | AttemptOutcome.resp _ _ _ => true

theorem genTextFallback_error {j : APIResponse} {e : JSError}
    (h : genTextFallback j = Except.error e) : e = formatError := by
  unfold genTextFallback at h
  rcases hg : j.generated_text with _ | t
  · rw [hg] at h
    simp at h
    exact h.symm
  · rw [hg] at h
    simp at h
    split at h
    · simp at h
    · simp at h
      exact h.symm

theorem extractResponseText_error {j : APIResponse} {e : JSError}
    (h : extractResponseText j = Except.error e) : e = formatError := by
  unfold extractResponseText at h
  rcases hc : j.choices.bind List.head? with _ | c
  · rw [hc] at h
    exact genTextFallback_error h
  · rw [hc] at h
    simp only at h
    rcases hm : c.message with _ | msg
    · rw [hm] at h
      exact genTextFallback_error h
    · rw [hm] at h
      simp at h

theorem attemptText_error_message {o : AttemptOutcome} {e : JSError}
    (h : attemptText o = Except.error e) (hs : outcomeSafe o = true) :
    e.message.isSome = true := by
  cases o with
  | thrown e0 =>
    simp only [attemptText] at h
    simp at h
    subst h
    exact hs
  | resp status statusText body =>
    simp only [attemptText] at h
    split at h
    · cases body with
      | none =>
        simp at h
        subst h
        rfl
      | some j =>
        simp only at h
        rcases hx : extractResponseText j with e1 | rt
        · rw [hx] at h
          simp at h
          subst h
          rw [extractResponseText_error hx]
          rfl
        · rw [hx] at h
          simp only at h
          split at h
          · simp at h
            subst h
            rfl
          · simp at h
    · split at h
      · simp at h
        subst h
        rfl
      · split at h
        · simp at h
          subst h
          rfl
        · split at h
          · simp at h
            subst h
            rfl
          · simp at h
            subst h
            rfl

theorem runAttempt_error_message {o : AttemptOutcome} {prompt : String}
    {hist : List Message} {now : Nat} {e : JSError}
    (h : runAttempt o prompt hist now = Except.error e) (hs : outcomeSafe o = true) :
    e.message.isSome = true := by
  unfold runAttempt at h
  rcases hx : attemptText o with e1 | rt
  · rw [hx] at h
    simp at h
    subst h
    exact attemptText_error_message hx hs
  · rw [hx] at h
    simp at h

/-- On a thrown value with a string message the final catch block always
returns one of the four templates, selected by `classifyFailure`. -/
theorem finalCatch_renders {e : JSError} (f : Bool) (hist : List Message) {m : String}
    (hm : e.message = some m) :
    finalCatch e f hist = Except.ok (renderFailure (classifyFailure e) f e hist) := by
  unfold finalCatch renderFailure classifyFailure
  rw [hm]
  cases h1 : strIncludes m "Rate limit" <;>
    cases h2 : strIncludes m "Authentication" <;>
      cases h3 : strIncludes m "fetch" <;>
        cases h4 : e.name == some "AbortError" <;>
          simp [h1, h2, h3, h4, hm]

/-- With Error-like thrown values, the retry loop always settles with a
returned string (never an escaping exception). -/
theorem askLoop_total (oracle : Nat → AttemptOutcome) (prompt : String) (force : Bool)
    (now : Nat) (hsafe : ∀ k, outcomeSafe (oracle k) = true) :
    ∀ (r a : Nat) (st : AskState), ∃ st' s,
      askLoop oracle prompt force now a r st = (st', Except.ok s) := by
  intro r
  induction r with
  | zero => intro a st; exact ⟨st, defaultFailText, rfl⟩
  | succ r ih =>
    intro a st
    rcases hx : runAttempt (oracle a) prompt st.history now with e | p
    · cases r with
      | zero =>
        rw [askLoop_err_last oracle prompt force now a st e hx]
        have hm := runAttempt_error_message hx (hsafe a)
        obtain ⟨m, hm⟩ := Option.isSome_iff_exists.mp hm
        rw [finalCatch_renders force st.history hm]
        exact ⟨st, _, rfl⟩
      | succ r' =>
        rw [askLoop_err_retry oracle prompt force now a (r' + 1) st e hx (by omega)]
        exact ih (a + 1) _
    · rw [askLoop_ok_step oracle prompt force now a r st p hx]
      exact ⟨_, p.1, rfl⟩

/- ### The session controller `ThaxuAIProvider` (src/thaxuAIProvider.ts) -/

/-- The per-panel session fields of `ThaxuAIProvider`: the display log
`_chatHistory` and the force-answer/cooldown/mentor flags. -/
structure ProviderState where
  chatHistory : List Message
  forceAnswerCooldown : Bool
  forceAnswerEnabled : Bool
  mentorMode : Bool
  cooldownEndTime : Nat
deriving DecidableEq

/-- The whole world the session operations act on: the provider state, the
shared `ApolloAI.conversationHistory`, the pending `setTimeout` cooldown
deadlines (never cancelled by `clearChat`/`_initializeChat`), and the
current instant `Date.now()`. -/
structure World where
  provider : ProviderState
  history : List Message
  timers : List Nat
  now : Nat
deriving DecidableEq

/-- A fresh panel at instant `t`: constructor defaults plus the initially
empty shared history. -/
def initWorld (t : Nat) : World :=
  ⟨⟨[], false, false, false, 0⟩, [], [], t⟩

/-- `addUserMessage`: push a user message onto the display log. -/
def addUserMessage (w : World) (message : String) : World :=
  { w with provider :=
      { w.provider with chatHistory := w.provider.chatHistory ++ [⟨"user", message, w.now⟩] } }

/-- `this._chatHistory.push({role: 'assistant', ...})`. -/
def pushAssistant (w : World) (content : String) : World :=
  { w with provider :=
      { w.provider with chatHistory := w.provider.chatHistory ++ [⟨"assistant", content, w.now⟩] } }

/-- JavaScript `Math.ceil(x / d)` on integers, for positive `d`. -/
def jsCeilDiv (x d : Int) : Int := -((-x).ediv d)

def mentorCodeTemplate (secs : Int) : String :=
  "## 🎓 Learning Mode (Qwen2-0.5B)\n\nLet\x27s think step by step:\n\n**What to try:**\n1. Break down the problem\n2. Look up documentation\n3. Start simple\n4. Test your idea\n\n**Learning tip:** Practice makes perfect!\n\n*Force Answer cooldown: " ++
    toString secs ++ " seconds*"

def mentorDefaultTemplate (secs : Int) : String :=
  "## 🎓 Learning Mode (Qwen2-0.5B)\n\nGood question! Consider:\n\n**Think about:**\n- What do you want to achieve?\n- What tools might help?\n- How can you break it down?\n\n**Next step:** Try researching the basics first.\n\n*Cooldown: " ++
    toString secs ++ " seconds*"

/-- `_generateSimpleMentorResponse(message)`: keyword branch between the
code-learning template and the generic template, both embedding
`Math.ceil((this._cooldownEndTime - Date.now()) / 1000)`. -/
def generateSimpleMentorResponse (cooldownEndTime now : Nat) (message : String) : String :=
  let lowerMessage := jsToLower message
  let secs := jsCeilDiv ((cooldownEndTime : Int) - (now : Int)) 1000
  if strIncludes lowerMessage "python" || strIncludes lowerMessage "code" ||
      strIncludes lowerMessage "function" then
    mentorCodeTemplate secs
  else
    mentorDefaultTemplate secs

/-- `_startCooldown()`: set the cooldown and mentor flags, fix the end time
two minutes ahead, and schedule a one-shot timer for that deadline. -/
def startCooldown (w : World) : World :=
  { w with
    provider :=
      { w.provider with
        forceAnswerCooldown := true
        mentorMode := true
        cooldownEndTime := w.now + 120000 }
    timers := w.timers ++ [w.now + 120000] }

/-- The body of the `setTimeout` callback scheduled by `_startCooldown`,
firing at its deadline `d`: clear the cooldown and mentor flags.  Firing
also consumes the pending timer and advances the clock to the deadline. -/
def fireTimer (w : World) (d : Nat) : World :=
  { w with
    provider := { w.provider with forceAnswerCooldown := false, mentorMode := false }
    timers := w.timers.erase d
    now := d }

/-- `toggleForceAnswer()`: rejected outright while the cooldown is active,
otherwise flip the flag. -/
def toggleForceAnswer (w : World) : World :=
  if w.provider.forceAnswerCooldown then w
  else
    { w with provider :=
        { w.provider with forceAnswerEnabled := !w.provider.forceAnswerEnabled } }

/-- `MAX_RETRIES` of src/chat.ts, the default retry budget of `askAI`. -/
def MAX_RETRIES : Nat := 3

/-- `processMessage(message, forceMode)`: run `askAI` (which may mutate the
shared history), then push exactly one assistant entry onto the display
log — the response verbatim when non-empty, a fixed apology when empty, and
an error-describing message when `askAI` raised. -/
def apologyText : String :=
  "I apologize, but I couldn\x27t generate a proper response. Could you please rephrase your question?"

/-- JavaScript string interpolation `${error}` of a caught value. -/
def jsErrorToString (e : JSError) : String :=
  match e.message with
  | some m => e.name.getD "Error" ++ ": " ++ m
  | none => e.name.getD "thrown value"

def errorReplyText (e : JSError) : String :=
  "❌ I encountered an error: " ++ jsErrorToString e ++ ". Please try again."

def processMessage (oracle : Nat → AttemptOutcome) (w : World) (message : String)
    (forceMode : Bool) : World :=
  let r := askAI oracle message forceMode MAX_RETRIES w.now w.history
  let w1 := { w with history := r.1.history }
  match r.2 with
  | Except.ok response =>
    if response.length > 0 then pushAssistant w1 response
    else pushAssistant w1 apologyText
  | Except.error e => pushAssistant w1 (errorReplyText e)

/-- `handleUserMessage(message)`: no-op on whitespace-only input; during an
active cooldown in mentor mode with force disabled, answer locally from the
mentor template (display log only); otherwise delegate to `processMessage`
and start the cooldown afterwards when force answer was used and no
cooldown is running. -/
def handleUserMessage (oracle : Nat → AttemptOutcome) (w : World) (message : String) : World :=
  if jsTrim message = "" then w
  else if w.provider.mentorMode && w.provider.forceAnswerCooldown &&
      !w.provider.forceAnswerEnabled then
    let w1 := addUserMessage w message
    pushAssistant w1 (generateSimpleMentorResponse w.provider.cooldownEndTime w.now message)
  else
    let w1 := addUserMessage w message
    let w2 := processMessage oracle w1 message w.provider.forceAnswerEnabled
    if w2.provider.forceAnswerEnabled && !w2.provider.forceAnswerCooldown then startCooldown w2
    else w2

/-- `clearChat()`: reset the provider fields to their defaults.  The shared
`ApolloAI.conversationHistory` is not touched (`ApolloAI.clearHistory` is
never invoked), and the pending cooldown timer is not cancelled. -/
def clearChat (w : World) : World :=
  { w with provider := ⟨[], false, false, false, 0⟩ }

/-- `_initializeChat()`: same field resets as `clearChat`. -/
def initChat (w : World) : World :=
  { w with provider := ⟨[], false, false, false, 0⟩ }

/-- The session events.  Time passes only through `tick`, which cannot
silently cross a pending timer deadline (a due `setTimeout` callback runs
at its deadline — `fire` — before time moves past it); this is the
single-threaded cooperative scheduling of the host. -/
inductive Step : World → World → Prop where
  | initEvent (w : World) : Step w (initChat w)
  | userMessage (oracle : Nat → AttemptOutcome) (message : String) (w : World) :
      Step w (handleUserMessage oracle w message)
  | toggleForce (w : World) : Step w (toggleForceAnswer w)
  | clearEvent (w : World) : Step w (clearChat w)
  | tick (w : World) (dt : Nat) : (∀ d ∈ w.timers, w.now + dt < d) →
      Step w { w with now := w.now + dt }
  | fire (w : World) (d : Nat) : d ∈ w.timers → w.now < d → Step w (fireTimer w d)

/-- Worlds reachable from a freshly opened panel. -/
inductive Reachable : World → Prop where
  | base (t : Nat) : Reachable (initWorld t)
  | step {w w' : World} : Reachable w → Step w w' → Reachable w'

/- ### The cooldown invariant -/

/-- Inductive invariant: while the cooldown is active, mentor mode is on,
the scheduled deadline equals `cooldownEndTime` and is still pending, and
the end time lies strictly in the future. -/
def CooldownInv (w : World) : Prop :=
  w.provider.forceAnswerCooldown = true →
    w.provider.mentorMode = true ∧
    w.provider.cooldownEndTime ∈ w.timers ∧
    w.now < w.provider.cooldownEndTime

theorem processMessage_fields (oracle : Nat → AttemptOutcome) (w : World) (m : String)
    (f : Bool) :
    (processMessage oracle w m f).provider.forceAnswerCooldown = w.provider.forceAnswerCooldown ∧
    (processMessage oracle w m f).provider.mentorMode = w.provider.mentorMode ∧
    (processMessage oracle w m f).provider.cooldownEndTime = w.provider.cooldownEndTime ∧
    (processMessage oracle w m f).provider.forceAnswerEnabled = w.provider.forceAnswerEnabled ∧
    (processMessage oracle w m f).timers = w.timers ∧
    (processMessage oracle w m f).now = w.now := by
  cases h : (askAI oracle m f MAX_RETRIES w.now w.history).2 with
  | error e => simp [processMessage, h, pushAssistant]
  | ok response =>
    simp only [processMessage, h, pushAssistant]
    split <;> simp

theorem handleUserMessage_inv (oracle : Nat → AttemptOutcome) (message : String) {w : World}
    (hw : CooldownInv w) : CooldownInv (handleUserMessage oracle w message) := by
  unfold handleUserMessage
  split
  · exact hw
  · split
    · intro hc
      simp only [pushAssistant, addUserMessage] at hc ⊢
      exact hw hc
    · have hf := processMessage_fields oracle (addUserMessage w message) message
        w.provider.forceAnswerEnabled
      dsimp only
      split
      · intro _
        simp only [startCooldown]
        refine ⟨trivial, ?_, ?_⟩
        · simp
        · simp only [hf.2.2.2.2.2, addUserMessage]
          omega
      · intro hc
        rw [hf.1] at hc
        simp only [addUserMessage] at hc
        have hp := hw hc
        refine ⟨?_, ?_, ?_⟩
        · rw [hf.2.1]; simpa [addUserMessage] using hp.1
        · rw [hf.2.2.1, hf.2.2.2.2.1]; simpa [addUserMessage] using hp.2.1
        · rw [hf.2.2.1, hf.2.2.2.2.2]; simpa [addUserMessage] using hp.2.2

theorem step_inv {w w' : World} (hw : CooldownInv w) (hs : Step w w') : CooldownInv w' := by
  cases hs with
  | initEvent w =>
    intro hc
    simp [initChat] at hc
  | userMessage oracle message w => exact handleUserMessage_inv oracle message hw
  | toggleForce w =>
    unfold toggleForceAnswer
    split
    · exact hw
    next h =>
      intro hc
      simp only at hc
      simp only [Bool.not_eq_true] at h
      rw [hc] at h
      cases h
  | clearEvent w =>
    intro hc
    simp [clearChat] at hc
  | tick w dt hlt =>
    intro hc
    simp only at hc
    have := hw hc
    exact ⟨this.1, this.2.1, hlt _ this.2.1⟩
  | fire w d hmem hlt =>
    intro hc
    simp [fireTimer] at hc

theorem reachable_inv {w : World} (h : Reachable w) : CooldownInv w := by
  induction h with
  | base t =>
    intro hc
    simp [initWorld] at hc
  | step _ hs ih => exact step_inv ih hs

/- ### Concrete stubs used in scenarios, witnesses and counterexamples -/

/-- A 2xx JSON body carrying `choices[0].message.content = s`. -/
def okBody (s : String) : APIResponse := ⟨some [⟨some ⟨some s⟩⟩], none⟩

/-- Stub remote client that always succeeds with "Hi there". -/
def c8stub : Nat → AttemptOutcome := fun _ => AttemptOutcome.resp 200 "OK" (some (okBody "Hi there"))

/-- Stub remote client that fails twice with an empty completion
(EmptyResponse) and succeeds on the third attempt. -/
def c6stub : Nat → AttemptOutcome := fun k =>
  if k = 3 then AttemptOutcome.resp 200 "OK" (some (okBody "All done"))
  else AttemptOutcome.resp 200 "OK" (some (okBody ""))

/-- A networking layer that throws a value with no `message`/`name`
properties (as `throw 42` would). -/
def badValueOracle : Nat → AttemptOutcome := fun _ => AttemptOutcome.thrown ⟨none, none⟩

/-- A remote endpoint that always answers HTTP 429. -/
def rateOracle : Nat → AttemptOutcome := fun _ => AttemptOutcome.resp 429 "Too Many Requests" none

/-- A session standing in an active cooldown with mentor mode on and force
answer disabled. -/
def mentorDemoWorld : World :=
  ⟨⟨[], true, false, true, 120000⟩, [⟨"user", "old", 7⟩], [120000], 5⟩

/-- A session standing in an active cooldown, used for the toggle claim. -/
def cooldownDemoWorld : World :=
  ⟨⟨[⟨"user", "hi", 0⟩], true, false, true, 120000⟩, [], [120000], 0⟩

def demoMsg : Message := ⟨"user", "hi", 0⟩

/- ### The claims -/

/-- Claim C1, counterexample: the user-requested clear (`clearChat`) does
not empty the shared ConversationHistory — after one successful exchange
followed by `clearChat`, `getHistory()` is still non-empty, contradicting
the claim that after clear the sequence returned by getHistory() is empty
(`clearChat` never invokes `ApolloAI.clearHistory`). -/
theorem clearChat_keeps_shared_history_cex :
    getHistory (clearChat (handleUserMessage c8stub (initWorld 0) "hello")).history ≠ [] := by
  decide

/-- Claim C1, amended: `clearChat` resets the SessionState fields to their
defaults (empty display log, `forceAnswerEnabled = false`,
`cooldownActive = false`, `mentorModeActive = false`, `cooldownEndTime`
reset) but leaves the shared ConversationHistory exactly as it was. -/
theorem clearChat_resets_session_only (w : World) :
    (clearChat w).provider.chatHistory = [] ∧
    (clearChat w).provider.forceAnswerCooldown = false ∧
    (clearChat w).provider.forceAnswerEnabled = false ∧
    (clearChat w).provider.mentorMode = false ∧
    (clearChat w).provider.cooldownEndTime = 0 ∧
    getHistory (clearChat w).history = getHistory w.history := by
  simp [clearChat, getHistory]

/-- Claim C2: while `mentorModeActive`, `cooldownActive` and
`¬forceAnswerEnabled`, a handled message appends the user entry and the
locally generated mentor reply to the display log only and leaves the
shared ConversationHistory unchanged; moreover the shared history is only
ever appended to by the remote-call path after a successful exchange — an
`askAI` run in which every attempt fails leaves the history untouched. -/
theorem mentor_reply_isolated_from_history (oracle : Nat → AttemptOutcome) (w : World)
    (msg : String) :
    (w.provider.mentorMode = true → w.provider.forceAnswerCooldown = true →
      w.provider.forceAnswerEnabled = false → jsTrim msg ≠ "" →
      (handleUserMessage oracle w msg).history = w.history ∧
      (handleUserMessage oracle w msg).provider.chatHistory =
        w.provider.chatHistory ++
          [⟨"user", msg, w.now⟩,
           ⟨"assistant", generateSimpleMentorResponse w.provider.cooldownEndTime w.now msg,
             w.now⟩]) ∧
    (∀ (prompt : String) (force : Bool) (n now : Nat) (hist : List Message),
      (∀ k, 1 ≤ k → k ≤ n → ∃ e, runAttempt (oracle k) prompt hist now = Except.error e) →
      (askAI oracle prompt force n now hist).1.history = hist) := by
  constructor
  · intro hm hc hf hne
    unfold handleUserMessage
    rw [if_neg hne, if_pos (by simp [hm, hc, hf])]
    constructor
    · simp [pushAssistant, addUserMessage]
    · simp [pushAssistant, addUserMessage]
  · intro prompt force n now hist hfail
    unfold askAI
    apply askLoop_history_of_no_success
    intro i hi
    exact hfail (1 + i) (by omega) (by omega)

/-- Claim C2, witness at a concrete cooldown session and a failing remote
layer. -/
theorem mentor_reply_isolated_from_history_witness :
    (handleUserMessage badValueOracle mentorDemoWorld "help me").history =
      mentorDemoWorld.history ∧
    (handleUserMessage badValueOracle mentorDemoWorld "help me").provider.chatHistory =
      mentorDemoWorld.provider.chatHistory ++
        [⟨"user", "help me", 5⟩,
         ⟨"assistant", generateSimpleMentorResponse 120000 5 "help me", 5⟩] :=
  (mentor_reply_isolated_from_history badValueOracle mentorDemoWorld "help me").1
    rfl rfl rfl (by decide)

/-- Claim C3: `toggleForceAnswer` while the cooldown is active is rejected
and leaves the whole session state (flags, end time, display log, shared
history, pending timers, clock) unchanged. -/
theorem toggleForceAnswer_rejected_during_cooldown (w : World)
    (h : w.provider.forceAnswerCooldown = true) : toggleForceAnswer w = w := by
  simp [toggleForceAnswer, h]

/-- Claim C3, witness. -/
theorem toggleForceAnswer_rejected_during_cooldown_witness :
    cooldownDemoWorld.provider.forceAnswerCooldown = true ∧
    toggleForceAnswer cooldownDemoWorld = cooldownDemoWorld :=
  ⟨by decide, toggleForceAnswer_rejected_during_cooldown cooldownDemoWorld (by decide)⟩

/-- Claim C4: in every session state reachable by the modelled operations
(initialize, handleUserMessage, toggleForceAnswer, cooldown start inside
handleUserMessage, timer expiry, clear, and time passage in which a due
timer fires at its deadline), an active cooldown implies mentor mode is on
and `cooldownEndTime` is strictly in the future. -/
theorem cooldown_implies_mentor_and_future_end (w : World) (hr : Reachable w)
    (hc : w.provider.forceAnswerCooldown = true) :
    w.provider.mentorMode = true ∧ w.now < w.provider.cooldownEndTime := by
  have h := reachable_inv hr hc
  exact ⟨h.1, h.2.2⟩

/-- Claim C4, witness: the state reached by toggling force answer on and
sending one successful message has the cooldown active, and the theorem
applies to it. -/
theorem cooldown_implies_mentor_and_future_end_witness :
    (handleUserMessage c8stub (toggleForceAnswer (initWorld 0)) "hello").provider.mentorMode =
      true ∧
    (handleUserMessage c8stub (toggleForceAnswer (initWorld 0)) "hello").now <
      (handleUserMessage c8stub (toggleForceAnswer (initWorld 0))
        "hello").provider.cooldownEndTime :=
  cooldown_implies_mentor_and_future_end _
    (Reachable.step (Reachable.step (Reachable.base 0) (Step.toggleForce _))
      (Step.userMessage c8stub "hello" _))
    (by decide)

/-- Claim C5: for every sequence of append calls starting from the empty
ConversationHistory, the stored length is `min(count, 8)` and the stored
entries are exactly the last `min(count, 8)` appended entries in order. -/
theorem history_sliding_window (es : List (String × String × Nat)) :
    (es.foldl (fun h e => addToHistory h e.1 e.2.1 e.2.2) []).length = min es.length 8 ∧
    es.foldl (fun h e => addToHistory h e.1 e.2.1 e.2.2) [] =
      lastN 8 (es.map fun e => (⟨e.1, e.2.1, e.2.2⟩ : Message)) := by
  refine ⟨?_, foldl_addToHistory es⟩
  rw [foldl_addToHistory]
  unfold lastN
  simp
  omega

/-- Claim C6: in a remote send with retry budget `n`, after the `k`-th
failed attempt with `k < n` the client waits exactly `2^(k-1) * 1000` ms
(the recorded delay list is `[2^0*1000, …]` in order), no wait occurs after
the final attempt, and the stub that fails twice with an empty response and
succeeds on the third of `n = 3` attempts yields the successful text after
exactly the two delays 1000 ms and 2000 ms, in that order. -/
theorem askAI_backoff_schedule (oracle : Nat → AttemptOutcome) (prompt : String)
    (force : Bool) (now : Nat) (hist : List Message) (n : Nat) :
    (∀ (j : Nat) (t : String) (h' : List Message), 1 ≤ j → j ≤ n →
      (∀ k, 1 ≤ k → k < j → ∃ e, runAttempt (oracle k) prompt hist now = Except.error e) →
      runAttempt (oracle j) prompt hist now = Except.ok (t, h') →
      askAI oracle prompt force n now hist =
        ({ history := h', waits := (List.range (j - 1)).map fun i => 2 ^ i * 1000 },
         Except.ok t)) ∧
    (∀ (e : Nat → JSError), 1 ≤ n →
      (∀ k, 1 ≤ k → k ≤ n → runAttempt (oracle k) prompt hist now = Except.error (e k)) →
      (askAI oracle prompt force n now hist).1.waits =
        (List.range (n - 1)).map fun i => 2 ^ i * 1000) ∧
    askAI c6stub "q" false 3 0 [] =
      ({ history := [⟨"user", "q", 0⟩, ⟨"assistant", "All done", 0⟩], waits := [1000, 2000] },
       Except.ok "All done") := by
  refine ⟨?_, ?_, by decide⟩
  · intro j t h' hj1 hjn hfail hsucc
    unfold askAI
    have hs : runAttempt (oracle (1 + (j - 1))) prompt hist now = Except.ok (t, h') := by
      rwa [show 1 + (j - 1) = j by omega]
    have h := askLoop_success oracle prompt force now (j - 1) 1 n ⟨hist, []⟩ t h'
      (by omega) (fun i hi => hfail (1 + i) (by omega) (by omega)) hs
    simpa [show ∀ i : Nat, 1 + i - 1 = i from fun i => by omega] using h
  · intro e hn hfail
    unfold askAI
    rw [askLoop_allfail oracle prompt force now n 1 ⟨hist, []⟩ (fun i => e (i + 1)) hn
      (fun i hi => by simpa [Nat.add_comm] using hfail (1 + i) (by omega) (by omega))]
    simp [show ∀ i : Nat, 1 + i - 1 = i from fun i => by omega]

/-- Claim C6, witness: the stub scenario instantiates the general
success-after-failures part at `j = 3`, `n = 3`. -/
theorem askAI_backoff_schedule_witness :
    askAI c6stub "q" false 3 0 [] =
      ({ history := [⟨"user", "q", 0⟩, ⟨"assistant", "All done", 0⟩],
         waits := (List.range (3 - 1)).map fun i => 2 ^ i * 1000 },
       Except.ok "All done") :=
  (askAI_backoff_schedule c6stub "q" false 0 [] 3).1 3
    "All done" [⟨"user", "q", 0⟩, ⟨"assistant", "All done", 0⟩] (by decide) (by decide)
    (fun k h1 h2 => ⟨emptyResponseError, by
      have hk : k ≠ 3 := by omega
      simp [c6stub, hk, runAttempt, attemptText, extractResponseText, okBody]⟩)
    (by decide)

/-- Claim C7, counterexample: when the networking layer throws a value with
no string `message` property (`throw 42`), the final catch block evaluates
`err.message.includes("Rate limit")` on `undefined` and the resulting
TypeError escapes `askAI` — so `askAI` does not always return displayable
text for "any thrown value". -/
theorem askAI_raises_on_messageless_thrown_cex :
    (askAI badValueOracle "hi" false 3 0 []).2 = Except.error includesTypeError := by
  decide

/-- Claim C7, amended: for every behaviour of the HTTP capability whose
thrown values carry a string `message` (every `Error` object, covering any
status code, malformed or empty JSON body, and network failure/timeout),
`askAI` never raises past its own boundary and always returns a text; on
exhaustion of all attempts the returned wording is the template selected by
classifying the last failure (rate limit / auth / network-timeout /
generic). -/
theorem askAI_total_and_wording_by_kind (oracle : Nat → AttemptOutcome) (prompt : String)
    (force : Bool) (n now : Nat) (hist : List Message)
    (hsafe : ∀ k, outcomeSafe (oracle k) = true) :
    (∃ st s, askAI oracle prompt force n now hist = (st, Except.ok s)) ∧
    (∀ (e : Nat → JSError), 1 ≤ n →
      (∀ k, 1 ≤ k → k ≤ n → runAttempt (oracle k) prompt hist now = Except.error (e k)) →
      (askAI oracle prompt force n now hist).2 =
        Except.ok (renderFailure (classifyFailure (e n)) force (e n) hist)) := by
  constructor
  · exact askLoop_total oracle prompt force now hsafe n 1 ⟨hist, []⟩
  · intro e hn hfail
    unfold askAI
    rw [askLoop_allfail oracle prompt force now n 1 ⟨hist, []⟩ (fun i => e (i + 1)) hn
      (fun i hi => by simpa [Nat.add_comm] using hfail (1 + i) (by omega) (by omega))]
    rw [show n - 1 + 1 = n by omega]
    have herr := hfail n (by omega) (le_refl n)
    have hm := runAttempt_error_message herr (hsafe n)
    obtain ⟨m, hm⟩ := Option.isSome_iff_exists.mp hm
    simp [finalCatch_renders force hist hm]

/-- Claim C7, witness: a remote endpoint answering HTTP 429 on all three
attempts makes `askAI` return the rate-limit template. -/
theorem askAI_total_and_wording_by_kind_witness :
    (askAI rateOracle "q" false 3 0 []).2 =
      Except.ok (renderFailure (classifyFailure rateLimitError) false rateLimitError []) :=
  (askAI_total_and_wording_by_kind rateOracle "q" false 3 0 [] (fun _ => rfl)).2
    (fun _ => rateLimitError) (by decide) (fun k _ _ => rfl)

/-- Claim C8: whenever the remote call succeeds (at attempt `j` of budget
`n`, after failing attempts), `askAI` appends exactly two entries to the
shared ConversationHistory — the user prompt with role user, then the
trimmed completion with role assistant, in that order — and returns the
trimmed text; concretely, `handleUserMessage "hello"` on the idle state
with a stub returning "Hi there" leaves the display log
`[user:"hello", assistant:"Hi there"]` and the history equal to the same
two entries. -/
theorem askAI_success_appends_pair (oracle : Nat → AttemptOutcome) (prompt : String)
    (force : Bool) (n now : Nat) (hist : List Message) (j : Nat) (rt : String)
    (hj1 : 1 ≤ j) (hjn : j ≤ n)
    (hfail : ∀ k, 1 ≤ k → k < j → ∃ e, attemptText (oracle k) = Except.error e)
    (hsucc : attemptText (oracle j) = Except.ok rt) :
    (askAI oracle prompt force n now hist =
      ({ history := addToHistory (addToHistory hist "user" prompt now) "assistant"
           (jsTrim rt) now,
         waits := (List.range (j - 1)).map fun i => 2 ^ i * 1000 },
       Except.ok (jsTrim rt))) ∧
    handleUserMessage c8stub (initWorld 0) "hello" =
      ⟨⟨[⟨"user", "hello", 0⟩, ⟨"assistant", "Hi there", 0⟩], false, false, false, 0⟩,
       [⟨"user", "hello", 0⟩, ⟨"assistant", "Hi there", 0⟩], [], 0⟩ := by
  refine ⟨?_, by decide⟩
  unfold askAI
  have hs : runAttempt (oracle (1 + (j - 1))) prompt hist now =
      Except.ok (jsTrim rt,
        addToHistory (addToHistory hist "user" prompt now) "assistant" (jsTrim rt) now) := by
    rw [show 1 + (j - 1) = j by omega]
    simp [runAttempt, hsucc]
  have hf : ∀ i, i < j - 1 →
      ∃ e, runAttempt (oracle (1 + i)) prompt hist now = Except.error e := by
    intro i hi
    obtain ⟨e, he⟩ := hfail (1 + i) (by omega) (by omega)
    exact ⟨e, by simp [runAttempt, he]⟩
  have h := askLoop_success oracle prompt force now (j - 1) 1 n ⟨hist, []⟩ (jsTrim rt) _
    (by omega) hf hs
  simpa [show ∀ i : Nat, 1 + i - 1 = i from fun i => by omega] using h

/-- Claim C8, witness: the general part applied to the constant "Hi there"
stub at `j = 1`. -/
theorem askAI_success_appends_pair_witness :
    askAI c8stub "hello" false 3 0 [] =
      ({ history := addToHistory (addToHistory [] "user" "hello" 0) "assistant"
           (jsTrim "Hi there") 0,
         waits := (List.range (1 - 1)).map fun i => 2 ^ i * 1000 },
       Except.ok (jsTrim "Hi there")) :=
  (askAI_success_appends_pair c8stub "hello" false 3 0 [] 1 "Hi there" (by decide) (by decide)
    (fun k h1 h2 => absurd h2 (by omega)) (by decide)).1

/-- Claim C9, counterexample: the derived ContextSignals are not a function
of the last 6 history entries alone — two histories with identical last-6
windows but different total lengths yield different signals, because
`conversationLength` (and through it `userProgression`) reads the full
history length. -/
theorem analyze_depends_on_length_cex :
    lastN 6 (List.replicate 6 demoMsg) = lastN 6 (List.replicate 7 demoMsg) ∧
    analyzeConversationContext (List.replicate 6 demoMsg) ≠
      analyzeConversationContext (List.replicate 7 demoMsg) := by
  decide

/-- Claim C9, amended: the derived ContextSignals are computed from the
last 6 history entries together with the total history length only — any
two histories agreeing on both yield equal signals. -/
theorem analyze_window_and_length (h1 h2 : List Message)
    (hw : lastN 6 h1 = lastN 6 h2) (hl : h1.length = h2.length) :
    analyzeConversationContext h1 = analyzeConversationContext h2 := by
  unfold analyzeConversationContext
  rw [hw, hl]

/-- Claim C9, witness: two histories differing only in their (dropped)
oldest entry produce the same signals. -/
theorem analyze_window_and_length_witness :
    analyzeConversationContext (⟨"user", "aa", 0⟩ :: List.replicate 6 demoMsg) =
      analyzeConversationContext (⟨"user", "bb", 1⟩ :: List.replicate 6 demoMsg) :=
  analyze_window_and_length _ _ (by decide) (by decide)

/-- Claim C10: every call to `processMessage` appends exactly one assistant
entry to the display log, leaving all prior entries unchanged; its content
is the remote response verbatim when non-empty, the fixed apology when the
response is empty, and an error-describing message when `askAI` raised. -/
theorem processMessage_appends_one_assistant (oracle : Nat → AttemptOutcome) (w : World)
    (message : String) (forceMode : Bool) :
    (processMessage oracle w message forceMode).provider.chatHistory =
      w.provider.chatHistory ++
        [⟨"assistant",
          (match (askAI oracle message forceMode MAX_RETRIES w.now w.history).2 with
           | Except.ok response => if response.length > 0 then response else apologyText
           | Except.error e => errorReplyText e),
          w.now⟩] := by
  cases h : (askAI oracle message forceMode MAX_RETRIES w.now w.history).2 with
  | error e => simp [processMessage, h, pushAssistant]
  | ok response =>
    simp only [processMessage, h, pushAssistant]
    split <;> simp_all

end Thaxu
